import Mathlib

/-!
Shallow embedding of the requirement/credit reconciliation engine of
`app.py` (KU GPA calculator, Streamlit).  Course tables (pandas
DataFrames in the source) are modelled as `List Course`; credit values
(floats in the source) as `ℚ`; Python dicts keyed by category name as
association lists `List (String × ℚ)` looked up by first match (Python
dict keys are unique, so theorems that depend on dict semantics carry a
`Nodup` hypothesis on the key list).  Session state consumed by
`calculate_with_overflow` (course table, entry-category list,
requirement profile, active major type) is passed explicitly as `Env`.
-/

namespace KUGPA

/-- A row of the course table (`st.session_state.courses`):
columns 과목명, 학점, 성적, 이수구분, 연도, 학기, 재수강. -/
structure Course where
  title : String
  credits : ℚ
  grade : String
  category : String
  year : Int
  term : String
  retake : Bool
deriving Repr, DecidableEq

/-- The 11 keys of `GRADE_MAP_45`, in dict order (used by
`isin(GRADE_MAP_45.keys())`). -/
def gradeKeys : List String :=
  ["A+", "A0", "B+", "B0", "C+", "C0", "D+", "D0", "F", "P", "NP"]

/-- `GRADE_MAP_45`: the nine letter grades map to a grade point, the
two pass markers "P"/"NP" map to `None`; in pandas `.map` a grade
outside the dict becomes NaN, i.e. also `none` here. -/
def GRADE_MAP_45 (g : String) : Option ℚ :=
  if g = "A+" then some (9/2)
  else if g = "A0" then some 4
  else if g = "B+" then some (7/2)
  else if g = "B0" then some 3
  else if g = "C+" then some (5/2)
  else if g = "C0" then some 2
  else if g = "D+" then some (3/2)
  else if g = "D0" then some 1
  else if g = "F" then some 0
  else none

def BASE_CATEGORIES : List String :=
  ["공통교양", "핵심교양", "전공필수", "전공선택", "일반선택"]

def MAJOR_TYPE_OPTIONS : List String := ["심화전공", "복수전공", "이중전공"]

/-- `TERM_OPTIONS` — the fixed chronological term sequence used by the
UI and data validation. -/
def TERM_OPTIONS : List String := ["1학기", "2학기", "여름", "겨울"]

/-- `get_categories_by_major_type`: legal categories for course entry
(심화전공 is never an entry category). -/
def get_categories_by_major_type (mt : String) : List String :=
  BASE_CATEGORIES ++
    (if mt = "복수전공" then ["복수전공 필수", "복수전공 선택"]
     else if mt = "이중전공" then ["이중전공 필수", "이중전공 선택"]
     else [])

/-- `get_requirements_categories_by_major_type`: categories legal for
requirement configuration (includes 심화전공 under that track). -/
def get_requirements_categories_by_major_type (mt : String) : List String :=
  BASE_CATEGORIES ++
    (if mt = "심화전공" then ["심화전공"]
     else if mt = "복수전공" then ["복수전공 필수", "복수전공 선택"]
     else if mt = "이중전공" then ["이중전공 필수", "이중전공 선택"]
     else [])

/-- Requirement profiles (`custom_requirements` / `DEFAULT_REQUIREMENTS`):
a Python dict category ↦ {"required": n}, as an association list. -/
abbrev Reqs := List (String × ℚ)

/-- `reqs.get(cat, {"required": dflt})["required"]`. -/
def reqGet (reqs : Reqs) (cat : String) (dflt : ℚ) : ℚ :=
  match reqs.find? (fun p => p.1 = cat) with
  | some p => p.2
  | none => dflt

/-- Dict assignment `reqs[cat] = {"required": v}`: overwrite the
binding if the key exists, otherwise append it (insertion order). -/
def setReq (reqs : Reqs) (cat : String) (v : ℚ) : Reqs :=
  if (reqs.find? (fun p => p.1 = cat)).isSome then
    reqs.map (fun p => if p.1 = cat then (p.1, v) else p)
  else reqs ++ [(cat, v)]

/-- Dict deletion `del reqs[cat]`. -/
def delReq (reqs : Reqs) (cat : String) : Reqs :=
  reqs.filter (fun p => p.1 ≠ cat)

def DEFAULT_REQUIREMENTS : Reqs :=
  [("공통교양", 13), ("핵심교양", 6), ("전공필수", 18), ("전공선택", 24),
   ("심화전공", 30), ("일반선택", 39), ("총계", 130)]

/-- `get_requirements_by_major_type`: the default profile of a track
(copy of `DEFAULT_REQUIREMENTS`, the two dual/double tracks add their
two categories and delete 심화전공). -/
def get_requirements_by_major_type (mt : String) : Reqs :=
  if mt = "복수전공" then
    delReq (setReq (setReq DEFAULT_REQUIREMENTS "복수전공 필수" 18) "복수전공 선택" 36) "심화전공"
  else if mt = "이중전공" then
    delReq (setReq (setReq DEFAULT_REQUIREMENTS "이중전공 필수" 18) "이중전공 선택" 24) "심화전공"
  else DEFAULT_REQUIREMENTS

/-- `auto_calculate_total_credits`: sum of required credits over all
categories except 총계. -/
def auto_calculate_total_credits (reqs : Reqs) : ℚ :=
  ((reqs.filter (fun p => p.1 ≠ "총계")).map (fun p => p.2)).sum

/-! ### Retake resolver (`process_retake_courses_correct`) -/

/-- Codepoint-lexicographic order on character lists: how pandas
compares the 학기 column (Python string `<`). -/
def charListLt : List Char → List Char → Bool
  | [], [] => false
  | [], _ :: _ => true
  | _ :: _, [] => false
  | a :: as, b :: bs => if a < b then true else if a = b then charListLt as bs else false

/-- Python/pandas string comparison (lexicographic on Unicode
codepoints). -/
def strLt (a b : String) : Bool := charListLt a.data b.data

/-- Strict "older than" in the sort key of
`sort_values(['연도','학기'], ascending=[False,False])`:
the 학기 column is compared as strings. -/
def recencyLtb (a b : Course) : Bool :=
  a.year < b.year || (a.year == b.year && strLt a.term b.term)

/-- First row of the descending (연도, 학기-string) sort: the earliest
listed row among those maximal for the key (a stable descending sort
puts exactly that row first). -/
def pickLatest (c : Course) : List Course → Course
  | [] => c
  | d :: ds => pickLatest (if recencyLtb c d then d else c) ds

/-- `pandas.Series.max` step function. -/
def qmax (a b : ℚ) : ℚ := if a ≤ b then b else a

/-- `valid_grades['grade_point'].max()` over a non-empty column. -/
def listMaxQ : List ℚ → ℚ
  | [] => 0
  | x :: xs => xs.foldl qmax x

/-- `group[group['성적'].isin(GRADE_MAP_45.keys())]`. -/
def valid1Of (group : List Course) : List Course :=
  group.filter (fun c => c.grade ∈ gradeKeys)

/-- ... then `.map(GRADE_MAP_45)` / `.dropna(subset=['grade_point'])`:
rows whose grade actually carries a grade point. -/
def valid2Of (group : List Course) : List Course :=
  (valid1Of group).filter (fun c => (GRADE_MAP_45 c.grade).isSome)

/-- `max_grade_point = valid_grades['grade_point'].max()`. -/
def maxGpOf (group : List Course) : ℚ :=
  listMaxQ ((valid2Of group).map (fun c => (GRADE_MAP_45 c.grade).getD 0))

/-- `best_courses = valid_grades[valid_grades['grade_point'] == max_grade_point]`. -/
def bestOf (group : List Course) : List Course :=
  (valid2Of group).filter (fun c => (GRADE_MAP_45 c.grade).getD 0 = maxGpOf group)

/-- Body of the per-title loop of `process_retake_courses_correct`:
the authoritative record chosen for one title group (rows in original
table order).  `none` only on an empty group, which never occurs. -/
def selectBest (group : List Course) : Option Course :=
  if 1 < group.length then
    if valid1Of group = [] then group.head?
    else if valid2Of group = [] then group.head?
    else if 1 < (bestOf group).length then
      match bestOf group with
      | [] => none
      | b :: bs => some (pickLatest b bs)
    else (bestOf group).head?
  else group.head?

/-- First-occurrence deduplication of a string list. -/
def dedupFirst : List String → List String
  | [] => []
  | t :: rest => t :: (dedupFirst rest).filter (fun s => s ≠ t)

/-- The group keys of `courses_df.groupby('과목명')`.  pandas iterates
them in sorted order; we keep first-occurrence order — the source
treats output order as irrelevant, only the per-title choice counts. -/
def uniqueTitles (l : List Course) : List String := dedupFirst (l.map (fun c => c.title))

/-- `process_retake_courses_correct` (records part; the warnings are
modelled separately by `retakeWarnings`). -/
def process_retake_courses_correct (l : List Course) : List Course :=
  (uniqueTitles l).filterMap (fun t => selectBest (l.filter (fun c => c.title = t)))

/-- The duplicate warnings of `process_retake_courses_correct`: one
`(course_name, count)` per title group with more than one row and more
than one non-retake row (the source renders these as Korean strings
carrying exactly the name and the count). -/
def retakeWarnings (l : List Course) : List (String × Nat) :=
  ((uniqueTitles l).filter (fun t =>
      1 < (l.filter (fun c => c.title = t)).length ∧
      1 < ((l.filter (fun c => c.title = t)).filter (fun c => c.retake = false)).length)).map
    (fun t => (t, ((l.filter (fun c => c.title = t)).filter (fun c => c.retake = false)).length))

/-! ### `calculate_with_overflow` -/

/-- Step 0 of `calculate_with_overflow`:
`df.sort_values("재수강").drop_duplicates(subset=["과목명"], keep="last")`.
The sort on the boolean 재수강 column is modelled as the stable
partition False-rows-then-True-rows. -/
def sortRetake (l : List Course) : List Course :=
  l.filter (fun c => c.retake = false) ++ l.filter (fun c => c.retake = true)

/-- `drop_duplicates(subset=["과목명"], keep="last")`: keep the last
occurrence of each title, in place. -/
def drop_duplicates_last : List Course → List Course
  | [] => []
  | c :: rest =>
    if rest.any (fun d => d.title = c.title) then drop_duplicates_last rest
    else c :: drop_duplicates_last rest

def dedupedOf (df : List Course) : List Course := drop_duplicates_last (sortRetake df)

/-- `gpa_rows = deduped[deduped["성적"].map(GRADE_MAP_45).notna()]`. -/
def gpaRows (rows : List Course) : List Course :=
  rows.filter (fun c => (GRADE_MAP_45 c.grade).isSome)

/-- `total_points = (gpa_rows["학점"] * gpa_rows["평점"]).sum()`. -/
def totalPoints (rows : List Course) : ℚ :=
  ((gpaRows rows).map (fun c => c.credits * (GRADE_MAP_45 c.grade).getD 0)).sum

/-- `total_credits_gpa = gpa_rows["학점"].sum()`. -/
def totalCreditsGpa (rows : List Course) : ℚ :=
  ((gpaRows rows).map (fun c => c.credits)).sum

/-- `overall_gpa = total_points / total_credits_gpa if total_credits_gpa else 0.0`. -/
def overall_gpa (rows : List Course) : ℚ :=
  if totalCreditsGpa rows = 0 then 0 else totalPoints rows / totalCreditsGpa rows

/-- `cat_rows = deduped[deduped["이수구분"] == cat]; cat_rows["학점"].sum()`. -/
def credSum (rows : List Course) (cat : String) : ℚ :=
  ((rows.filter (fun c => c.category = cat)).map (fun c => c.credits)).sum

/-- The explicit session state consumed by `calculate_with_overflow`. -/
structure Env where
  courses : List Course      -- df_raw
  entryCats : List String    -- get_current_categories()
  reqs : Reqs                -- get_current_requirements()
  majorType : String         -- st.session_state.major_type

def Env.deduped (env : Env) : List Course := dedupedOf env.courses

/-- Step 1 (`raw_summary`): the dict built over `get_current_categories()`;
`raw_summary.get(cat, 0)` is `0` for a key outside the entry list. -/
def rawSummary (env : Env) (cat : String) : ℚ :=
  if cat ∈ env.entryCats then credSum env.deduped cat else 0

/-- `major_selection_credits = raw_summary.get("전공선택", 0)`. -/
def majorSelectionCredits (env : Env) : ℚ := rawSummary env "전공선택"

/-- `major_selection_required = current_requirements.get("전공선택", {"required": 24})["required"]`. -/
def majorSelectionRequired (env : Env) : ℚ := reqGet env.reqs "전공선택" 24

/-- Step 2 (advanced-major derivation): the raw summary after the
심화전공 block — only under the 심화전공 track, the 전공선택 excess over its
requirement moves to a 심화전공 entry and 전공선택 is capped. -/
def rawAfterAdvanced (env : Env) (cat : String) : ℚ :=
  if env.majorType = "심화전공" then
    if majorSelectionCredits env > majorSelectionRequired env then
      if cat = "전공선택" then majorSelectionRequired env
      else if cat = "심화전공" then majorSelectionCredits env - majorSelectionRequired env
      else rawSummary env cat
    else
      if cat = "심화전공" then 0 else rawSummary env cat
  else rawSummary env cat

/-- `all_requirement_categories`: requirement keys with 총계 removed. -/
def loopCats (reqs : Reqs) : List String := (reqs.map (fun p => p.1)).erase "총계"

/-- One category's overflow in step 3. -/
def overflowOf (earned required : ℚ) : ℚ := if earned > required then earned - required else 0

/-- One category's capped credit in step 3 (`required` is recorded when
the earned amount exceeds it). -/
def cappedOf (earned required : ℚ) : ℚ := if earned > required then required else earned

/-- `total_overflow` accumulated by the step-3 loop (every requirement
category except 일반선택; `required` defaults to 0 for a category whose
dict entry is missing). -/
def total_overflow (env : Env) : ℚ :=
  (((loopCats env.reqs).filter (fun cat => cat ≠ "일반선택")).map
    (fun cat => overflowOf (rawAfterAdvanced env cat) (reqGet env.reqs cat 0))).sum

/-- `adjusted_summary` as a lookup: capped credit for the loop
categories, and 일반선택 = its own raw credits + all overflow. -/
def adjusted_summary (env : Env) (cat : String) : ℚ :=
  if cat = "일반선택" then rawAfterAdvanced env "일반선택" + total_overflow env
  else cappedOf (rawAfterAdvanced env cat) (reqGet env.reqs cat 0)

/-- The key list of the `adjusted_summary` dict: the loop categories
(≠ 일반선택) in order, then the 일반선택 entry assigned after the loop. -/
def adjustedKeys (reqs : Reqs) : List String :=
  ((loopCats reqs).filter (fun cat => cat ≠ "일반선택")) ++ ["일반선택"]

/-- `total_earned = sum(adjusted_summary.values())`. -/
def total_earned (env : Env) : ℚ :=
  ((adjustedKeys env.reqs).map (fun cat => adjusted_summary env cat)).sum

/-- The categories given a summary row in step 4 (심화전공 only under the
심화전공 track); also the categories scanned by the
`all_requirements_met` loop in step 5. -/
def displayCats (env : Env) : List String :=
  (loopCats env.reqs).filter (fun cat => ¬(cat = "심화전공" ∧ env.majorType ≠ "심화전공"))

/-- Per-category GPA of step 4: over the deduplicated rows of the
category whose grade carries a grade point; `np.nan` (here `none`) when
there are none or their credits sum to 0. -/
def catGpa (rows : List Course) (cat : String) : Option ℚ :=
  match gpaRows (rows.filter (fun c => c.category = cat)) with
  | [] => none
  | r :: rs =>
    let credits := (((r :: rs)).map (fun c => c.credits)).sum
    if credits = 0 then none
    else some ((((r :: rs)).map (fun c => c.credits * (GRADE_MAP_45 c.grade).getD 0)).sum / credits)

/-- One summary row `(영역, 이수학점, 평균 GPA)`: for the 심화전공 row under
the 심화전공 track, the GPA is computed over the 전공선택 rows. -/
def summaryRow (env : Env) (cat : String) : String × ℚ × Option ℚ :=
  (cat, adjusted_summary env cat,
    if cat = "심화전공" ∧ env.majorType = "심화전공" then catGpa env.deduped "전공선택"
    else catGpa env.deduped cat)

/-- `summary_df` (step 4). -/
def summary_df (env : Env) : List (String × ℚ × Option ℚ) :=
  (displayCats env).map (fun cat => summaryRow env cat)

/-- Step 5: every displayed category reaches its requirement. -/
def all_requirements_met (env : Env) : Bool :=
  (displayCats env).all
    (fun cat => ¬(adjusted_summary env cat < reqGet env.reqs cat 0))

/-- `total_required = current_requirements["총계"]["required"]` (the
source indexes the key directly; every profile it builds contains 총계). -/
def graduationTotalRequired (env : Env) : ℚ := reqGet env.reqs "총계" 0

def excess_credits (env : Env) : ℚ :=
  if all_requirements_met env ∧ total_earned env > graduationTotalRequired env then
    total_earned env - graduationTotalRequired env
  else 0

/-- Round half to even (Python `round` on an exact decimal value). -/
def roundHalfEven (q : ℚ) : ℤ :=
  if q - ⌊q⌋ < 1/2 then ⌊q⌋
  else if q - ⌊q⌋ > 1/2 then ⌊q⌋ + 1
  else if (⌊q⌋ : ℤ) % 2 = 0 then ⌊q⌋ else ⌊q⌋ + 1

/-- Python `round(x, 2)`. -/
def round2 (q : ℚ) : ℚ := (roundHalfEven (q * 100) : ℚ) / 100

/-- The `misc` result dict of `calculate_with_overflow`. -/
structure Misc where
  overall_gpa : ℚ
  earned_credits : ℚ
  gpa_credits : ℚ
  excess_credits : ℚ
  all_requirements_met : Bool
deriving Repr, DecidableEq

def calcMisc (env : Env) : Misc :=
  { overall_gpa := round2 (overall_gpa env.deduped)
    earned_credits := total_earned env
    gpa_credits := totalCreditsGpa env.deduped
    excess_credits := excess_credits env
    all_requirements_met := all_requirements_met env }

/-! ### Target GPA simulation (목표 GPA 시뮬레이션 block) -/

inductive TargetResult where
  | alreadyAchieved
  | infeasible (maxPossibleGpa : ℚ)
  | needed (avg : ℚ)
deriving Repr, DecidableEq

/-- The `else` branch (`remain > 0`) of the 목표 GPA 시뮬레이션 block,
with `misc["overall_gpa"]`, `misc["gpa_credits"]`, `remain` and the
target GPA as explicit inputs. -/
def targetSimulation (overallGpa gpaCredits remain targetGpa : ℚ) : TargetResult :=
  let current_total_points := overallGpa * gpaCredits
  let future_total_credits := gpaCredits + remain
  let target_total_points := targetGpa * future_total_credits
  let needed_points := target_total_points - current_total_points
  let need_avg := if remain > 0 then needed_points / remain else 0
  if need_avg < 0 then .alreadyAchieved
  else if need_avg > 9/2 then
    .infeasible ((current_total_points + remain * (9/2)) / future_total_credits)
  else .needed need_avg

/-! ### Requirement-profile mutations and the 총계 invariant -/

/-- `custom_requirements["총계"]["required"] = auto_calculate_total_credits(...)`
(the only form in which the source ever writes 총계). -/
def recomputeTotal (reqs : Reqs) : Reqs :=
  setReq reqs "총계" (auto_calculate_total_credits reqs)

/-- The callback of `update_requirement_with_auto_total`: write the
category's requirement, then recompute 총계. -/
def update_requirement_with_auto_total (reqs : Reqs) (cat : String) (v : ℚ) : Reqs :=
  recomputeTotal (setReq reqs cat v)

/-- `add_custom_category` (requirements part): the new category is
added with a required value of 0; `validate_category_name` has already
rejected names that exist. -/
def add_custom_category_reqs (reqs : Reqs) (name : String) : Reqs :=
  setReq reqs name 0

/-- The sidebar quick-add (`st.session_state.custom_requirements[cat] =
{"required": default_credits}`) followed by the unconditional 총계
recomputation the triggered rerun performs in the 졸업 요건 설정 sidebar
(lines 2561–2563) before any result is computed. -/
def quick_add_event (reqs : Reqs) (name : String) (defaultCredits : ℚ) : Reqs :=
  recomputeTotal (setReq reqs name defaultCredits)

/-- `remove_custom_category` (requirements part) followed by the same
sidebar 총계 recomputation on the triggered rerun. -/
def remove_category_event (reqs : Reqs) (name : String) : Reqs :=
  recomputeTotal (delReq reqs name)

/-- The requirements update of `update_major_type_with_validation`
(lines 1759–1764): start from the target track's defaults, then merge
the caller's custom categories that survived. -/
def switchMergeReqs (mt : String) (oldReqs : Reqs) (keep : List String) : Reqs :=
  oldReqs.foldl
    (fun acc p =>
      if (acc.find? (fun q => q.1 = p.1)).isNone ∧ p.1 ∈ keep then setReq acc p.1 p.2
      else acc)
    (get_requirements_by_major_type mt)

/-- Track switch requirements update including its own 총계
recomputation (lines 1766–1768). -/
def switch_track_reqs_event (mt : String) (oldReqs : Reqs) (keep : List String) : Reqs :=
  recomputeTotal (switchMergeReqs mt oldReqs keep)

/-! ### Track switching (`check_major_type_compatibility`,
`update_major_type_with_validation`) -/

/-- The categories `check_major_type_compatibility` treats as
incompatible with the target track. -/
def invalidCatsFor (mt : String) : List String :=
  if mt = "심화전공" then ["이중전공 필수", "이중전공 선택", "복수전공 필수", "복수전공 선택"]
  else if mt = "이중전공" then ["복수전공 필수", "복수전공 선택"]
  else if mt = "복수전공" then ["이중전공 필수", "이중전공 선택"]
  else []

/-- The four track-specific course categories (every other entry
category is legal under every track). -/
def trackSpecificCats : List String :=
  ["복수전공 필수", "복수전공 선택", "이중전공 필수", "이중전공 선택"]

def countCat (df : List Course) (cat : String) : Nat :=
  (df.filter (fun c => c.category = cat)).length

/-- `check_major_type_compatibility`: `(is_compatible, conflicts)`;
the source renders each conflict as a Korean string carrying exactly
the category and its record count, modelled as the pair. -/
def check_major_type_compatibility (courses : List Course) (newMt : String) :
    Bool × List (String × Nat) :=
  if courses = [] then (true, [])
  else
    let conflicts :=
      ((invalidCatsFor newMt).filter (fun cat => 0 < countCat courses cat)).map
        (fun cat => (cat, countCat courses cat))
    (conflicts = [], conflicts)

/-- The relevant session state of `update_major_type_with_validation`. -/
structure AppState where
  courses : List Course
  majorType : String
  customCategories : List String
  customReqs : Reqs
deriving Repr, DecidableEq

/-- Lines 1747–1768: the state update applied once the switch is
validated (or the selected type is unchanged). -/
def applySwitch (st : AppState) (newMt : String) : AppState :=
  let custom_additions := st.customCategories.filter
    (fun cat => cat ∉ BASE_CATEGORIES ∧ cat ∉ trackSpecificCats)
  { courses := st.courses
    majorType := newMt
    customCategories := get_categories_by_major_type newMt ++ custom_additions
    customReqs := switch_track_reqs_event newMt st.customReqs (custom_additions ++ ["학문의기초"]) }

/-- `update_major_type_with_validation`: `(new state, conflicts)`; on a
conflict the widget is rolled back and the state is left untouched. -/
def update_major_type_with_validation (st : AppState) (newMt : String) :
    AppState × List (String × Nat) :=
  if newMt ≠ st.majorType then
    let (isCompatible, conflicts) := check_major_type_compatibility st.courses newMt
    if ¬isCompatible then (st, conflicts)
    else (applySwitch st newMt, [])
  else (applySwitch st newMt, [])

/-! ### Derived abbreviations used by the theorems -/

/-- The step-3 loop categories other than 일반선택. -/
def loopCatsNG (reqs : Reqs) : List String :=
  (loopCats reqs).filter (fun c => c ≠ "일반선택")

/-- The sum of the step-1 raw per-category earned credits (the value
sum of the `raw_summary` dict before the advanced-major derivation). -/
def rawTotal (env : Env) : ℚ :=
  (env.entryCats.map (fun cat => credSum env.deduped cat)).sum

/-! ### Concrete course records and session states used in evaluations -/

/-- Tied retake pair, 여름 attempt (same title, same grade "A0", same
year as `tieWinter`). -/
def tieSummer : Course := ⟨"미적분학", 3, "A0", "전공선택", 2024, "여름", false⟩

/-- Tied retake pair, 겨울 attempt — chronologically the more recent
one (겨울 comes after 여름 in `TERM_OPTIONS`). -/
def tieWinter : Course := ⟨"미적분학", 3, "A0", "전공선택", 2024, "겨울", true⟩

/-- First attempt of title "X": grade "A0" (grade point 4), not marked
as retake. -/
def cFirst : Course := ⟨"X", 3, "A0", "공통교양", 2023, "1학기", false⟩

/-- Second attempt of title "X": grade "F" (grade point 0), marked as
retake. -/
def cSecond : Course := ⟨"X", 3, "F", "공통교양", 2024, "1학기", true⟩

/-- Ten 3-credit 전공선택 courses: raw earned 30 in 전공선택. -/
def coursesC1 : List Course :=
  [⟨"전공A", 3, "A0", "전공선택", 2024, "1학기", false⟩,
   ⟨"전공B", 3, "A0", "전공선택", 2024, "1학기", false⟩,
   ⟨"전공C", 3, "A0", "전공선택", 2024, "1학기", false⟩,
   ⟨"전공D", 3, "A0", "전공선택", 2024, "1학기", false⟩,
   ⟨"전공E", 3, "A0", "전공선택", 2024, "1학기", false⟩,
   ⟨"전공F", 3, "A0", "전공선택", 2024, "1학기", false⟩,
   ⟨"전공G", 3, "A0", "전공선택", 2024, "1학기", false⟩,
   ⟨"전공H", 3, "A0", "전공선택", 2024, "1학기", false⟩,
   ⟨"전공I", 3, "A0", "전공선택", 2024, "1학기", false⟩,
   ⟨"전공J", 3, "A0", "전공선택", 2024, "1학기", false⟩]

/-- The 심화전공-track session state of the spec scenario: requirement
24 for 전공선택, raw earned 30. -/
def envC1 : Env := ⟨coursesC1, BASE_CATEGORIES, DEFAULT_REQUIREMENTS, "심화전공"⟩

/-- A single 3-credit course in the category "외부이수", which is in the
entry-category list but not in the requirement profile. -/
def coursesC2 : List Course := [⟨"외부과목", 3, "A0", "외부이수", 2024, "1학기", false⟩]

/-- Session state whose course data uses a category ("외부이수") absent
from the requirement profile. -/
def envC2 : Env := ⟨coursesC2, BASE_CATEGORIES ++ ["외부이수"], DEFAULT_REQUIREMENTS, "심화전공"⟩

/-- A well-formed 심화전공-track session state (every entry category is
in the requirement profile). -/
def envC2w : Env :=
  ⟨[⟨"국어", 3, "A0", "공통교양", 2024, "1학기", false⟩],
   BASE_CATEGORIES, DEFAULT_REQUIREMENTS, "심화전공"⟩

/-- A single 3-credit course in the category "교직", which is in the
entry-category list but not in the requirement profile. -/
def coursesC3 : List Course := [⟨"교직과목", 3, "A0", "교직", 2024, "1학기", false⟩]

/-- Session state whose course data uses the category "교직", absent
from the requirement profile. -/
def envC3 : Env := ⟨coursesC3, BASE_CATEGORIES ++ ["교직"], DEFAULT_REQUIREMENTS, "심화전공"⟩

/-- The spec scenario course set: one 3-credit "A+" record and one
3-credit "P" record. -/
def coursesC6 : List Course :=
  [⟨"영어", 3, "A+", "공통교양", 2024, "1학기", false⟩,
   ⟨"체육", 3, "P", "공통교양", 2024, "1학기", false⟩]

/-- Session state of the A+/P scenario. -/
def envC6 : Env := ⟨coursesC6, BASE_CATEGORIES, DEFAULT_REQUIREMENTS, "심화전공"⟩

/-- A single pass/no-pass record: no grade-point-bearing rows. -/
def pOnly : Course := ⟨"봉사", 3, "P", "공통교양", 2024, "1학기", false⟩

/-- One 1-credit "A0" and one 2-credit "B0" record: exact GPA 10/3. -/
def coursesC10 : List Course :=
  [⟨"수학", 1, "A0", "공통교양", 2024, "1학기", false⟩,
   ⟨"물리", 2, "B0", "공통교양", 2024, "1학기", false⟩]

/-- Session state whose exact overall GPA (10/3) is not a 2-decimal
number. -/
def envC10 : Env := ⟨coursesC10, BASE_CATEGORIES, DEFAULT_REQUIREMENTS, "심화전공"⟩

/-- The grand-total invariant of the requirement profile: 총계's
required value equals the sum of every other category's requirement. -/
def totalInv (reqs : Reqs) : Prop :=
  reqGet reqs "총계" 0 = auto_calculate_total_credits reqs

/-- A 복수전공-track session with one course in 복수전공 필수 — a category
illegal under the 심화전공 track. -/
def stC9 : AppState :=
  ⟨[⟨"경영학원론", 3, "A0", "복수전공 필수", 2024, "1학기", false⟩],
   "복수전공", get_categories_by_major_type "복수전공", get_requirements_by_major_type "복수전공"⟩

/-! ## General lemmas -/

theorem dedupFirst_eq_self {l : List String} (h : l.Nodup) : dedupFirst l = l := by
  induction l with
  | nil => rfl
  | cons t rest ih =>
    rw [dedupFirst, ih h.of_cons]
    have : ∀ s ∈ rest, (decide (s ≠ t)) = true := by
      intro s hs
      simp only [decide_eq_true_eq]
      intro he; exact (h.not_mem (he ▸ hs)).elim
    rw [List.filter_eq_self.mpr this]

theorem filter_title_single {l : List Course} (h : (l.map (fun c => c.title)).Nodup)
    {c : Course} (hc : c ∈ l) : l.filter (fun d => d.title = c.title) = [c] := by
  induction l with
  | nil => cases hc
  | cons a tl ih =>
    rw [List.map_cons, List.nodup_cons] at h
    rcases List.mem_cons.mp hc with rfl | hmem
    · have : tl.filter (fun d => d.title = c.title) = [] := by
        apply List.filter_eq_nil_iff.mpr
        intro d hd
        simp only [decide_eq_true_eq]
        intro he
        exact h.1 (he ▸ List.mem_map_of_mem (fun c => c.title) hd)
      simp [List.filter_cons, this]
    · have hne : a.title ≠ c.title := by
        intro he
        exact h.1 (he ▸ List.mem_map_of_mem (fun c => c.title) hmem)
      rw [List.filter_cons]
      simp only [decide_eq_true_eq]
      rw [if_neg (by simpa using fun he : a.title = c.title => hne he)]
      exact ih h.2 hmem

theorem selectBest_single (c : Course) : selectBest [c] = some c := by
  simp [selectBest]

theorem process_retake_eq_self {l : List Course}
    (h : (l.map (fun c => c.title)).Nodup) : process_retake_courses_correct l = l := by
  unfold process_retake_courses_correct uniqueTitles
  rw [dedupFirst_eq_self h, List.filterMap_map]
  have : ∀ c ∈ l, (selectBest (l.filter (fun d => d.title = c.title))) = some c := by
    intro c hc
    rw [filter_title_single h hc, selectBest_single]
  calc l.filterMap (fun c => selectBest (l.filter (fun d => d.title = c.title)))
      = l.filterMap some := List.filterMap_congr this
    _ = l := List.filterMap_some l

theorem sortRetake_perm (l : List Course) : (sortRetake l).Perm l := by
  unfold sortRetake
  have h2 : l.filter (fun c => c.retake = true) =
      l.filter (fun c => !(decide (c.retake = false))) := by
    apply List.filter_congr
    intro c _
    cases hc : c.retake <;> simp
  rw [h2]
  exact List.filter_append_perm (fun c => decide (c.retake = false)) l

theorem drop_duplicates_last_eq_self {l : List Course}
    (h : (l.map (fun c => c.title)).Nodup) : drop_duplicates_last l = l := by
  induction l with
  | nil => rfl
  | cons c rest ih =>
    rw [List.map_cons, List.nodup_cons] at h
    have hany : rest.any (fun d => d.title = c.title) = false := by
      simp only [List.any_eq_false, decide_eq_true_eq]
      intro d hd he
      exact h.1 (he ▸ List.mem_map_of_mem (fun c => c.title) hd)
    rw [drop_duplicates_last, hany]
    simp [ih h.2]

/-! ## Claim C4 -/

/-- C4 (code bug): the retake tie-break is claimed to prefer the most
recent (연도, 학기) record with 학기 ordered by the chronological sequence
`TERM_OPTIONS`.  The source instead sorts the 학기 column as strings, and
in codepoint order 여름 sorts after 겨울: for two "A0" attempts of the
same title in 2024-여름 and 2024-겨울, the resolver keeps the 여름
record, although 겨울 is the chronologically more recent term
(`TERM_OPTIONS` lists 여름 before 겨울). -/
theorem C4_tiebreak_term_order_is_alphabetical :
    process_retake_courses_correct [tieSummer, tieWinter] = [tieSummer] ∧
    List.indexOf "여름" TERM_OPTIONS < List.indexOf "겨울" TERM_OPTIONS ∧
    strLt "겨울" "여름" = true := by
  refine ⟨by decide, by decide, by decide⟩

/-! ## Claim C5 -/

/-- C5 (counterexample): the overflow engine's dedup and the retake
resolver are not equivalent.  For two attempts of title "X" — "A0" not
flagged as retake, then "F" flagged — the engine's
sort-by-재수강/keep-last dedup keeps the F record while the resolver
keeps the A0 record (the highest grade point). -/
theorem C5_dedup_not_equivalent_counterexample :
    dedupedOf [cFirst, cSecond] = [cSecond] ∧
    process_retake_courses_correct [cFirst, cSecond] = [cFirst] ∧
    cFirst ≠ cSecond := by
  refine ⟨by decide, by decide, by decide⟩

/-- C5 (amended): the two dedup embeddings agree only in the absence of
repeated titles — for a course list whose titles are pairwise distinct
both keep exactly the original records (the engine's output is a
permutation of the resolver's); with a repeated title they can select
different records, as the counterexample shows. -/
theorem C5_dedup_equivalent_on_distinct_titles {l : List Course}
    (h : (l.map (fun c => c.title)).Nodup) :
    (dedupedOf l).Perm (process_retake_courses_correct l) := by
  rw [process_retake_eq_self h]
  unfold dedupedOf
  have hperm := sortRetake_perm l
  have hnodup : ((sortRetake l).map (fun c => c.title)).Nodup :=
    ((hperm.map (fun c => c.title)).nodup_iff).mpr h
  rw [drop_duplicates_last_eq_self hnodup]
  exact hperm

/-- Witness for `C5_dedup_equivalent_on_distinct_titles` at a concrete
two-course list with distinct titles. -/
theorem C5_dedup_equivalent_on_distinct_titles_witness :
    (dedupedOf [tieSummer, cFirst]).Perm (process_retake_courses_correct [tieSummer, cFirst]) :=
  C5_dedup_equivalent_on_distinct_titles (by decide)

/-! ## Claim C1 -/

/-- C1: the advanced-major derivation fires only under the 심화전공
track.  With E the raw earned 전공선택 credits and R its requirement:
under 심화전공, if E > R the bucket receives E − R and 전공선택 is capped at
R, otherwise the bucket is 0 and 전공선택 keeps E; under any other track
the raw summary is untouched and no 심화전공 summary row is emitted. -/
theorem C1_advanced_major_derivation (env : Env) :
    (env.majorType = "심화전공" →
      (majorSelectionCredits env > majorSelectionRequired env →
        rawAfterAdvanced env "전공선택" = majorSelectionRequired env ∧
        rawAfterAdvanced env "심화전공" =
          majorSelectionCredits env - majorSelectionRequired env) ∧
      (¬ majorSelectionCredits env > majorSelectionRequired env →
        rawAfterAdvanced env "전공선택" = majorSelectionCredits env ∧
        rawAfterAdvanced env "심화전공" = 0)) ∧
    (env.majorType ≠ "심화전공" →
      (∀ cat, rawAfterAdvanced env cat = rawSummary env cat) ∧
      "심화전공" ∉ (summary_df env).map (fun row => row.1)) := by
  refine ⟨fun hmt => ⟨fun hover => ⟨?_, ?_⟩, fun hover => ⟨?_, ?_⟩⟩,
    fun hmt => ⟨fun cat => ?_, fun hmem => ?_⟩⟩
  · unfold rawAfterAdvanced
    rw [if_pos hmt, if_pos hover, if_pos rfl]
  · unfold rawAfterAdvanced
    rw [if_pos hmt, if_pos hover, if_neg (by decide), if_pos rfl]
  · unfold rawAfterAdvanced
    rw [if_pos hmt, if_neg hover, if_neg (by decide)]
    rfl
  · unfold rawAfterAdvanced
    rw [if_pos hmt, if_neg hover, if_pos rfl]
  · unfold rawAfterAdvanced
    rw [if_neg hmt]
  · simp only [summary_df, List.map_map, List.mem_map, Function.comp] at hmem
    obtain ⟨cat, hcat, hc⟩ := hmem
    simp only [summaryRow] at hc
    subst hc
    rw [displayCats, List.mem_filter] at hcat
    have h2 := hcat.2
    simp only [decide_eq_true_eq, not_and, not_not, forall_const] at h2
    exact hmt h2

theorem coursesC1_dedup : dedupedOf coursesC1 = coursesC1 := by
  have hs : sortRetake coursesC1 = coursesC1 := by
    simp [sortRetake, coursesC1]
  rw [dedupedOf, hs]
  exact drop_duplicates_last_eq_self (by decide)

theorem envC1_E : majorSelectionCredits envC1 = 30 := by
  have : envC1.deduped = coursesC1 := coursesC1_dedup
  rw [majorSelectionCredits, rawSummary, if_pos (by decide), this]
  norm_num [credSum, coursesC1]

theorem envC1_R : majorSelectionRequired envC1 = 24 := by decide

/-- Witness for `C1_advanced_major_derivation`: the spec scenario —
전공선택 requirement 24, raw earned 30, 심화전공 track — leaves 전공선택
capped at 24 and puts 6 in the 심화전공 bucket. -/
theorem C1_advanced_major_derivation_witness :
    rawAfterAdvanced envC1 "전공선택" = 24 ∧ rawAfterAdvanced envC1 "심화전공" = 6 := by
  have h := ((C1_advanced_major_derivation envC1).1 rfl).1 (by rw [envC1_E, envC1_R]; norm_num)
  rw [envC1_E, envC1_R] at h
  exact ⟨h.1, by rw [h.2]; norm_num⟩

/-! ## Claim C7 -/

/-- C7: for positive remaining credits the target projection computes
neededAverage = (target × (gpaCredits + remain) − gpa × gpaCredits) /
remain; above the maximum grade point 9/2 it reports infeasibility
together with the best achievable GPA (gpa × gpaCredits + remain × 9/2)
/ (gpaCredits + remain); below 0 it reports the target as already
achieved; otherwise it reports the needed average itself. -/
theorem C7_target_projection (g gc r t : ℚ) (hr : 0 < r) :
    ((t * (gc + r) - g * gc) / r > 9/2 →
      targetSimulation g gc r t = .infeasible ((g * gc + r * (9/2)) / (gc + r))) ∧
    ((t * (gc + r) - g * gc) / r < 0 →
      targetSimulation g gc r t = .alreadyAchieved) ∧
    (¬((t * (gc + r) - g * gc) / r < 0) → ¬((t * (gc + r) - g * gc) / r > 9/2) →
      targetSimulation g gc r t = .needed ((t * (gc + r) - g * gc) / r)) := by
  simp only [targetSimulation, gt_iff_lt]
  rw [if_pos hr]
  refine ⟨?_, ?_, ?_⟩
  · intro h
    rw [if_neg (by linarith), if_pos h]
  · intro h
    rw [if_pos h]
  · intro h1 h2
    rw [if_neg h1, if_neg h2]

/-- Witness for `C7_target_projection` at the spec scenario: target
4.0, GPA 3.5 over 60 credits, 20 remaining — the needed average is
5.5 > 4.5, infeasible, and the best achievable final GPA is 3.75. -/
theorem C7_target_projection_witness :
    targetSimulation (7/2) 60 20 4 = .infeasible ((7/2 * 60 + 20 * (9/2)) / (60 + 20)) ∧
    ((4 * ((60:ℚ) + 20) - (7/2) * 60) / 20 = 11/2) ∧
    (((7:ℚ)/2 * 60 + 20 * (9/2)) / (60 + 20) = 15/4) :=
  ⟨(C7_target_projection (7/2) 60 20 4 (by norm_num)).1 (by norm_num),
   by norm_num, by norm_num⟩

/-! ## Sum lemmas for the overflow pass -/

theorem cappedOf_add_overflowOf (e r : ℚ) : cappedOf e r + overflowOf e r = e := by
  unfold cappedOf overflowOf
  split_ifs with h <;> ring

theorem sum_map_add_dist {α : Type} (K : List α) (f g : α → ℚ) :
    (K.map (fun c => f c + g c)).sum = (K.map f).sum + (K.map g).sum := by
  induction K with
  | nil => simp
  | cons x xs ih => simp [ih]; ring

/-- Steps 3–4 rearranged: the final totals sum to the post-derivation
raw credits of the profile categories (일반선택 uncapped, the rest
conserved as capped + overflow). -/
theorem total_earned_split (env : Env) :
    total_earned env =
      (((loopCats env.reqs).filter (fun c => c ≠ "일반선택")).map
        (fun c => rawAfterAdvanced env c)).sum + rawAfterAdvanced env "일반선택" := by
  unfold total_earned adjustedKeys
  rw [List.map_append, List.sum_append]
  have h1 : (([("일반선택" : String)]).map (fun cat => adjusted_summary env cat)).sum
      = rawAfterAdvanced env "일반선택" + total_overflow env := by
    simp [adjusted_summary]
  rw [h1]
  have h2 : ((loopCats env.reqs).filter (fun c => c ≠ "일반선택")).map
        (fun cat => adjusted_summary env cat)
      = ((loopCats env.reqs).filter (fun c => c ≠ "일반선택")).map
          (fun cat => cappedOf (rawAfterAdvanced env cat) (reqGet env.reqs cat 0)) := by
    apply List.map_congr_left
    intro cat hcat
    rw [List.mem_filter] at hcat
    have hne : cat ≠ "일반선택" := by simpa using hcat.2
    rw [adjusted_summary, if_neg hne]
  rw [h2, total_overflow]
  have h3 : ((loopCats env.reqs).filter (fun c => c ≠ "일반선택")).map
        (fun cat => cappedOf (rawAfterAdvanced env cat) (reqGet env.reqs cat 0) +
          overflowOf (rawAfterAdvanced env cat) (reqGet env.reqs cat 0))
      = ((loopCats env.reqs).filter (fun c => c ≠ "일반선택")).map
          (fun c => rawAfterAdvanced env c) := by
    apply List.map_congr_left
    intro cat _
    exact cappedOf_add_overflowOf _ _
  have h4 := sum_map_add_dist ((loopCats env.reqs).filter (fun c => c ≠ "일반선택"))
    (fun cat => cappedOf (rawAfterAdvanced env cat) (reqGet env.reqs cat 0))
    (fun cat => overflowOf (rawAfterAdvanced env cat) (reqGet env.reqs cat 0))
  rw [h3] at h4
  linarith

/-- Splitting a sum over a duplicate-free list at one element. -/
theorem sum_split_at {l : List String} (hnd : l.Nodup) (a : String) (f : String → ℚ) :
    (l.map f).sum = ((l.filter (fun x => x ≠ a)).map f).sum + (if a ∈ l then f a else 0) := by
  induction l with
  | nil => simp
  | cons x xs ih =>
    rw [List.nodup_cons] at hnd
    by_cases hx : x = a
    · subst hx
      have hf : xs.filter (fun y => y ≠ x) = xs :=
        List.filter_eq_self.mpr (fun y hy => by
          simp only [decide_eq_true_eq]
          exact fun he => hnd.1 (he ▸ hy))
      rw [List.filter_cons, if_neg (by simp), hf,
        if_pos (List.mem_cons_self x xs), List.map_cons, List.sum_cons]
      ring
    · have hiff : (a ∈ x :: xs) ↔ (a ∈ xs) := by
        rw [List.mem_cons]
        exact or_iff_right (fun h => hx h.symm)
      rw [List.filter_cons, if_pos (by simpa using hx), List.map_cons, List.map_cons,
        List.sum_cons, List.sum_cons, ih hnd.2]
      simp only [hiff]
      ring

theorem sum_map_filter_support {l : List String} (p : String → Bool) (f : String → ℚ)
    (h : ∀ x ∈ l, ¬ p x = true → f x = 0) :
    (l.map f).sum = ((l.filter p).map f).sum := by
  induction l with
  | nil => simp
  | cons x xs ih =>
    rw [List.filter_cons]
    by_cases hp : p x = true
    · rw [if_pos hp]
      simp only [List.map_cons, List.sum_cons]
      rw [ih (fun y hy => h y (List.mem_cons_of_mem x hy))]
    · rw [if_neg hp]
      simp only [List.map_cons, List.sum_cons]
      rw [h x (List.mem_cons_self x xs) hp, ih (fun y hy => h y (List.mem_cons_of_mem x hy))]
      ring

/-! ## Pointwise facts about the advanced-major derivation -/

theorem rawAfterAdvanced_eq_of_ne (env : Env) (cat : String)
    (h1 : cat ≠ "전공선택") (h2 : cat ≠ "심화전공") :
    rawAfterAdvanced env cat = rawSummary env cat := by
  unfold rawAfterAdvanced
  by_cases hmt : env.majorType = "심화전공"
  · rw [if_pos hmt]
    by_cases hover : majorSelectionCredits env > majorSelectionRequired env
    · rw [if_pos hover, if_neg h1, if_neg h2]
    · rw [if_neg hover, if_neg h2]
  · rw [if_neg hmt]

theorem rawAfterAdvanced_eq_of_not_over (env : Env) (cat : String)
    (hmt : env.majorType = "심화전공")
    (hover : ¬ majorSelectionCredits env > majorSelectionRequired env)
    (h2 : cat ≠ "심화전공") :
    rawAfterAdvanced env cat = rawSummary env cat := by
  unfold rawAfterAdvanced
  rw [if_pos hmt, if_neg hover, if_neg h2]

theorem loopCats_nodup {reqs : Reqs} (hk : (reqs.map (fun p => p.1)).Nodup) :
    (loopCats reqs).Nodup :=
  (List.erase_sublist _ _).nodup hk

theorem mem_loopCats {reqs : Reqs} (hk : (reqs.map (fun p => p.1)).Nodup) (x : String) :
    x ∈ loopCats reqs ↔ x ∈ reqs.map (fun p => p.1) ∧ x ≠ "총계" := by
  rw [loopCats, List.Nodup.erase_eq_filter hk, List.mem_filter]
  simp

theorem mem_loopCatsNG {reqs : Reqs} (hk : (reqs.map (fun p => p.1)).Nodup) (x : String) :
    x ∈ loopCatsNG reqs ↔ x ∈ reqs.map (fun p => p.1) ∧ x ≠ "총계" ∧ x ≠ "일반선택" := by
  rw [loopCatsNG, List.mem_filter, mem_loopCats hk]
  simp [and_assoc]

theorem loopCatsNG_nodup {reqs : Reqs} (hk : (reqs.map (fun p => p.1)).Nodup) :
    (loopCatsNG reqs).Nodup :=
  (loopCats_nodup hk).filter _

/-- Under the hypotheses that make the profile a Python dict containing
the two advanced-track categories, the post-derivation raw summary sums
to the pre-derivation one over the profile categories. -/
theorem raw2_sum_eq_rawS_sum (env : Env)
    (hk : (env.reqs.map (fun p => p.1)).Nodup)
    (hsim_entry : "심화전공" ∉ env.entryCats)
    (hmaj : env.majorType = "심화전공" →
      "심화전공" ∈ env.reqs.map (fun p => p.1) ∧ "전공선택" ∈ env.reqs.map (fun p => p.1)) :
    ((loopCatsNG env.reqs).map (fun c => rawAfterAdvanced env c)).sum +
        rawAfterAdvanced env "일반선택"
      = ((loopCatsNG env.reqs).map (fun c => rawSummary env c)).sum +
        rawSummary env "일반선택" := by
  have hGen : rawAfterAdvanced env "일반선택" = rawSummary env "일반선택" :=
    rawAfterAdvanced_eq_of_ne env _ (by decide) (by decide)
  by_cases hmt : env.majorType = "심화전공"
  · obtain ⟨hsk, hjk⟩ := hmaj hmt
    have hnd := loopCatsNG_nodup hk
    have hsimS : rawSummary env "심화전공" = 0 := by
      rw [rawSummary, if_neg hsim_entry]
    by_cases hover : majorSelectionCredits env > majorSelectionRequired env
    · have hjL : "전공선택" ∈ loopCatsNG env.reqs :=
        (mem_loopCatsNG hk _).mpr ⟨hjk, by decide, by decide⟩
      have hsL : "심화전공" ∈ loopCatsNG env.reqs :=
        (mem_loopCatsNG hk _).mpr ⟨hsk, by decide, by decide⟩
      have hnd2 : ((loopCatsNG env.reqs).filter (fun x => x ≠ "전공선택")).Nodup :=
        hnd.filter _
      have hsL2 : "심화전공" ∈ (loopCatsNG env.reqs).filter (fun x => x ≠ "전공선택") := by
        rw [List.mem_filter]
        exact ⟨hsL, by decide⟩
      have e1 := sum_split_at hnd "전공선택" (fun c => rawAfterAdvanced env c)
      have e2 := sum_split_at hnd2 "심화전공" (fun c => rawAfterAdvanced env c)
      have e3 := sum_split_at hnd "전공선택" (fun c => rawSummary env c)
      have e4 := sum_split_at hnd2 "심화전공" (fun c => rawSummary env c)
      rw [if_pos hjL] at e1 e3
      rw [if_pos hsL2] at e2 e4
      have hcore : (((loopCatsNG env.reqs).filter (fun x => x ≠ "전공선택")).filter
            (fun x => x ≠ "심화전공")).map (fun c => rawAfterAdvanced env c)
          = (((loopCatsNG env.reqs).filter (fun x => x ≠ "전공선택")).filter
            (fun x => x ≠ "심화전공")).map (fun c => rawSummary env c) := by
        apply List.map_congr_left
        intro c hc
        rw [List.mem_filter] at hc
        have hc2 : c ≠ "심화전공" := by simpa using hc.2
        rw [List.mem_filter] at hc
        have hc1 : c ≠ "전공선택" := by
          have := hc.1.2
          simpa using this
        exact rawAfterAdvanced_eq_of_ne env c hc1 hc2
      have hv1 : rawAfterAdvanced env "전공선택" = majorSelectionRequired env := by
        unfold rawAfterAdvanced
        rw [if_pos hmt, if_pos hover, if_pos rfl]
      have hv2 : rawAfterAdvanced env "심화전공" =
          majorSelectionCredits env - majorSelectionRequired env := by
        unfold rawAfterAdvanced
        rw [if_pos hmt, if_pos hover, if_neg (by decide), if_pos rfl]
      have hv3 : rawSummary env "전공선택" = majorSelectionCredits env := rfl
      rw [hGen, e1, e2, e3, e4, hcore, hv1, hv2, hv3, hsimS]
      ring
    · have hcore : (loopCatsNG env.reqs).map (fun c => rawAfterAdvanced env c)
          = (loopCatsNG env.reqs).map (fun c => rawSummary env c) := by
        apply List.map_congr_left
        intro c _
        by_cases hc : c = "심화전공"
        · subst hc
          have : rawAfterAdvanced env "심화전공" = 0 := by
            unfold rawAfterAdvanced
            rw [if_pos hmt, if_neg hover, if_pos rfl]
          rw [this, hsimS]
        · exact rawAfterAdvanced_eq_of_not_over env c hmt hover hc
      rw [hGen, hcore]
  · have hcore : (loopCatsNG env.reqs).map (fun c => rawAfterAdvanced env c)
        = (loopCatsNG env.reqs).map (fun c => rawSummary env c) := by
      apply List.map_congr_left
      intro c _
      unfold rawAfterAdvanced
      rw [if_neg hmt]
    rw [hGen, hcore]

/-! ## Invariance under dropping an unprofiled category -/

theorem credSum_perm {l lp : List Course} (h : l.Perm lp) (cat : String) :
    credSum l cat = credSum lp cat :=
  ((h.filter _).map _).sum_eq

theorem credSum_filter_ne {l : List Course} {X cat : String} (h : cat ≠ X) :
    credSum (l.filter (fun c => c.category ≠ X)) cat = credSum l cat := by
  unfold credSum
  rw [List.filter_filter]
  have hf : l.filter (fun a => decide (a.category = cat) && decide (a.category ≠ X))
      = l.filter (fun c => decide (c.category = cat)) := by
    apply List.filter_congr
    intro c _
    by_cases hc : c.category = cat
    · simp [hc, h]
    · simp [hc]
  rw [hf]

theorem dedup_perm_of_nodup_titles {l : List Course}
    (h : (l.map (fun c => c.title)).Nodup) : (dedupedOf l).Perm l := by
  unfold dedupedOf
  have hperm := sortRetake_perm l
  have hnodup : ((sortRetake l).map (fun c => c.title)).Nodup :=
    ((hperm.map (fun c => c.title)).nodup_iff).mpr h
  rw [drop_duplicates_last_eq_self hnodup]
  exact hperm

/-- Removing every course of one category changes no other category's
raw credit sum (for duplicate-free titles). -/
theorem rawSummary_drop_category (env : Env) (X : String)
    (htitles : (env.courses.map (fun c => c.title)).Nodup)
    {cat : String} (hcat : cat ≠ X) :
    rawSummary { env with courses := env.courses.filter (fun c => c.category ≠ X) } cat
      = rawSummary env cat := by
  unfold rawSummary
  have hsub : (env.courses.filter (fun c => c.category ≠ X)).Sublist env.courses :=
    List.filter_sublist _
  have htit : ((env.courses.filter (fun c => c.category ≠ X)).map
      (fun c => c.title)).Nodup := (hsub.map _).nodup htitles
  have hcred : credSum (dedupedOf (env.courses.filter (fun c => c.category ≠ X))) cat
      = credSum (dedupedOf env.courses) cat := by
    rw [credSum_perm (dedup_perm_of_nodup_titles htit) cat,
      credSum_perm (dedup_perm_of_nodup_titles htitles) cat,
      credSum_filter_ne hcat]
  simp only [Env.deduped] at hcred ⊢
  rw [hcred]

theorem rawAfterAdvanced_drop_category (env : Env) (X : String)
    (htitles : (env.courses.map (fun c => c.title)).Nodup)
    (hX3 : X ≠ "전공선택")
    {cat : String} (hcat : cat ≠ X) :
    rawAfterAdvanced { env with courses := env.courses.filter (fun c => c.category ≠ X) } cat
      = rawAfterAdvanced env cat := by
  have hE : majorSelectionCredits
      { env with courses := env.courses.filter (fun c => c.category ≠ X) }
      = majorSelectionCredits env :=
    rawSummary_drop_category env X htitles (fun h => hX3 h.symm)
  have hR : majorSelectionRequired
      { env with courses := env.courses.filter (fun c => c.category ≠ X) }
      = majorSelectionRequired env := rfl
  unfold rawAfterAdvanced
  rw [hE, hR]
  by_cases hmt : env.majorType = "심화전공"
  · rw [if_pos hmt, if_pos hmt]
    by_cases hover : majorSelectionCredits env > majorSelectionRequired env
    · rw [if_pos hover, if_pos hover]
      by_cases h1 : cat = "전공선택"
      · rw [if_pos h1, if_pos h1]
      · rw [if_neg h1, if_neg h1]
        by_cases h2 : cat = "심화전공"
        · rw [if_pos h2, if_pos h2]
        · rw [if_neg h2, if_neg h2, rawSummary_drop_category env X htitles hcat]
    · rw [if_neg hover, if_neg hover]
      by_cases h2 : cat = "심화전공"
      · rw [if_pos h2, if_pos h2]
      · rw [if_neg h2, if_neg h2, rawSummary_drop_category env X htitles hcat]
  · rw [if_neg hmt, if_neg hmt, rawSummary_drop_category env X htitles hcat]

/-! ## Evaluation helpers for concrete session states -/

theorem overflowOf_zero {r : ℚ} (h : ¬ (0:ℚ) > r) : overflowOf 0 r = 0 := by
  unfold overflowOf
  rw [if_neg h]

/-- Engine totals under the default profile, 심화전공 track, no 전공선택
overflow: the grand total is the plain sum of the five entry
categories' raw credits. -/
theorem total_earned_default_not_over (env : Env)
    (hreqs : env.reqs = DEFAULT_REQUIREMENTS)
    (hmt : env.majorType = "심화전공")
    (hover : ¬ majorSelectionCredits env > majorSelectionRequired env) :
    total_earned env = rawSummary env "공통교양" + rawSummary env "핵심교양" +
      rawSummary env "전공필수" + rawSummary env "전공선택" + rawSummary env "일반선택" := by
  have hsplit := total_earned_split env
  rw [hreqs] at hsplit
  rw [show (loopCats DEFAULT_REQUIREMENTS).filter (fun c => c ≠ "일반선택")
      = ["공통교양", "핵심교양", "전공필수", "전공선택", "심화전공"] from by decide] at hsplit
  simp only [List.map_cons, List.map_nil, List.sum_cons, List.sum_nil] at hsplit
  rw [rawAfterAdvanced_eq_of_ne env "공통교양" (by decide) (by decide),
    rawAfterAdvanced_eq_of_ne env "핵심교양" (by decide) (by decide),
    rawAfterAdvanced_eq_of_ne env "전공필수" (by decide) (by decide),
    rawAfterAdvanced_eq_of_not_over env "전공선택" hmt hover (by decide),
    rawAfterAdvanced_eq_of_ne env "일반선택" (by decide) (by decide),
    show rawAfterAdvanced env "심화전공" = 0 from by
      unfold rawAfterAdvanced
      rw [if_pos hmt, if_neg hover, if_pos rfl]] at hsplit
  rw [hsplit]
  ring

theorem envC2_dedup : envC2.deduped = coursesC2 := by
  simp [Env.deduped, envC2, dedupedOf, sortRetake, drop_duplicates_last, coursesC2]

theorem envC2_rawS_zero : ∀ cat ∈ ["공통교양", "핵심교양", "전공필수", "전공선택", "일반선택"],
    rawSummary envC2 cat = 0 := by
  intro cat hcat
  fin_cases hcat <;>
    (rw [rawSummary, if_pos (by decide), envC2_dedup]
     simp [credSum, coursesC2, List.filter_cons, List.filter_nil])

theorem envC3_dedup : envC3.deduped = coursesC3 := by
  simp [Env.deduped, envC3, dedupedOf, sortRetake, drop_duplicates_last, coursesC3]

theorem envC3_rawS_zero : ∀ cat ∈ ["공통교양", "핵심교양", "전공필수", "전공선택", "일반선택"],
    rawSummary envC3 cat = 0 := by
  intro cat hcat
  fin_cases hcat <;>
    (rw [rawSummary, if_pos (by decide), envC3_dedup]
     simp [credSum, coursesC3, List.filter_cons, List.filter_nil])

/-! ## Claim C2 -/

/-- C2 (counterexample): overflow redistribution does not conserve
credit for every course set and requirement profile.  With one 3-credit
course in a category ("외부이수") present in the entry list but absent
from the requirement profile, the raw per-category credits sum to 3
while the final per-category totals sum to 0. -/
theorem C2_overflow_conservation_counterexample :
    total_earned envC2 = 0 ∧ rawTotal envC2 = 3 ∧ total_earned envC2 ≠ rawTotal envC2 := by
  have h0 : total_earned envC2 = 0 := by
    rw [total_earned_default_not_over envC2 rfl rfl
      (by
        rw [show majorSelectionCredits envC2 = 0 from
          envC2_rawS_zero "전공선택" (by decide)]
        rw [show majorSelectionRequired envC2 = 24 from by decide]
        norm_num)]
    rw [envC2_rawS_zero "공통교양" (by decide), envC2_rawS_zero "핵심교양" (by decide),
      envC2_rawS_zero "전공필수" (by decide), envC2_rawS_zero "전공선택" (by decide),
      envC2_rawS_zero "일반선택" (by decide)]
    norm_num
  have h3 : rawTotal envC2 = 3 := by
    rw [rawTotal, envC2_dedup]
    simp [envC2, BASE_CATEGORIES, credSum, coursesC2, List.filter_cons, List.filter_nil]
  exact ⟨h0, h3, by rw [h0, h3]; norm_num⟩

/-- C2 (amended): overflow redistribution conserves credit whenever the
course data and profile are consistent the way the application keeps
them — profile keys distinct (a Python dict), entry categories distinct
and all present in the profile, 총계 and 심화전공 not entry categories,
and under the 심화전공 track the profile contains 심화전공 and 전공선택.
Then the final per-category totals sum to the raw per-category earned
credits. -/
theorem C2_overflow_conservation (env : Env)
    (hk : (env.reqs.map (fun p => p.1)).Nodup)
    (he : env.entryCats.Nodup)
    (hsub : ∀ c ∈ env.entryCats, c ∈ env.reqs.map (fun p => p.1))
    (htot : "총계" ∉ env.entryCats)
    (hsim : "심화전공" ∉ env.entryCats)
    (hmaj : env.majorType = "심화전공" →
      "심화전공" ∈ env.reqs.map (fun p => p.1) ∧ "전공선택" ∈ env.reqs.map (fun p => p.1)) :
    total_earned env = rawTotal env := by
  have hsplit : total_earned env =
      ((loopCatsNG env.reqs).map (fun c => rawAfterAdvanced env c)).sum +
        rawAfterAdvanced env "일반선택" := total_earned_split env
  rw [hsplit, raw2_sum_eq_rawS_sum env hk hsim hmaj]
  have h1 : ((loopCatsNG env.reqs).map (fun c => rawSummary env c)).sum
      = (((loopCatsNG env.reqs).filter (fun c => c ∈ env.entryCats)).map
          (fun c => rawSummary env c)).sum :=
    sum_map_filter_support _ _ (fun x _ hnx => by
      rw [rawSummary, if_neg (by simpa using hnx)])
  have h2 : (((loopCatsNG env.reqs).filter (fun c => c ∈ env.entryCats)).map
        (fun c => rawSummary env c))
      = (((loopCatsNG env.reqs).filter (fun c => c ∈ env.entryCats)).map
          (fun c => credSum env.deduped c)) := by
    apply List.map_congr_left
    intro c hc
    rw [List.mem_filter] at hc
    rw [rawSummary, if_pos (by simpa using hc.2)]
  have hA : ((loopCatsNG env.reqs).filter (fun c => c ∈ env.entryCats)).Nodup :=
    (loopCatsNG_nodup hk).filter _
  have hB : (env.entryCats.filter (fun c => c ≠ "일반선택")).Nodup := he.filter _
  have hperm : ((loopCatsNG env.reqs).filter (fun c => c ∈ env.entryCats)).Perm
      (env.entryCats.filter (fun c => c ≠ "일반선택")) := by
    apply List.perm_of_nodup_nodup_toFinset_eq hA hB
    ext x
    simp only [List.mem_toFinset, List.mem_filter, decide_eq_true_eq]
    rw [mem_loopCatsNG hk]
    constructor
    · rintro ⟨⟨_, _, hng⟩, hent⟩
      exact ⟨hent, hng⟩
    · rintro ⟨hent, hng⟩
      exact ⟨⟨hsub x hent, fun h => htot (h ▸ hent), hng⟩, hent⟩
  have h3 : (((loopCatsNG env.reqs).filter (fun c => c ∈ env.entryCats)).map
        (fun c => credSum env.deduped c)).sum
      = ((env.entryCats.filter (fun c => c ≠ "일반선택")).map
          (fun c => credSum env.deduped c)).sum :=
    (hperm.map _).sum_eq
  have h4 := sum_split_at he "일반선택" (fun c => credSum env.deduped c)
  have h5 : rawSummary env "일반선택" =
      if "일반선택" ∈ env.entryCats then credSum env.deduped "일반선택" else 0 := rfl
  rw [h1, h2, h3, h5, rawTotal, h4]

/-- Witness for `C2_overflow_conservation` at a concrete well-formed
심화전공-track session state. -/
theorem C2_overflow_conservation_witness : total_earned envC2w = rawTotal envC2w :=
  C2_overflow_conservation envC2w (by decide) (by decide) (by decide) (by decide) (by decide)
    (fun _ => ⟨by decide, by decide⟩)

/-! ## Claim C3 -/

/-- C3 (counterexample): a category present in the course data but
absent from the requirement profile is NOT treated as a zero-requirement
category whose credit overflows into 일반선택.  With one 3-credit "교직"
course, the 일반선택 final total stays 0 and the grand total stays 0 —
the 3 credits are dropped. -/
theorem C3_missing_category_counterexample :
    credSum envC3.deduped "교직" = 3 ∧
    adjusted_summary envC3 "일반선택" = 0 ∧
    total_earned envC3 = 0 := by
  have hover : ¬ majorSelectionCredits envC3 > majorSelectionRequired envC3 := by
    rw [show majorSelectionCredits envC3 = 0 from envC3_rawS_zero "전공선택" (by decide)]
    rw [show majorSelectionRequired envC3 = 24 from by decide]
    norm_num
  refine ⟨?_, ?_, ?_⟩
  · rw [envC3_dedup]
    simp [credSum, coursesC3, List.filter_cons, List.filter_nil]
  · rw [adjusted_summary, if_pos rfl,
      rawAfterAdvanced_eq_of_ne envC3 "일반선택" (by decide) (by decide),
      envC3_rawS_zero "일반선택" (by decide)]
    rw [total_overflow]
    rw [show (loopCats envC3.reqs).filter (fun c => c ≠ "일반선택")
        = ["공통교양", "핵심교양", "전공필수", "전공선택", "심화전공"] from by decide]
    simp only [List.map_cons, List.map_nil, List.sum_cons, List.sum_nil]
    rw [rawAfterAdvanced_eq_of_ne envC3 "공통교양" (by decide) (by decide),
      rawAfterAdvanced_eq_of_ne envC3 "핵심교양" (by decide) (by decide),
      rawAfterAdvanced_eq_of_ne envC3 "전공필수" (by decide) (by decide),
      rawAfterAdvanced_eq_of_not_over envC3 "전공선택" rfl hover (by decide),
      show rawAfterAdvanced envC3 "심화전공" = 0 from by
        unfold rawAfterAdvanced
        rw [if_pos (show envC3.majorType = "심화전공" from rfl), if_neg hover,
          if_pos (rfl : ("심화전공" : String) = "심화전공")]]
    rw [envC3_rawS_zero "공통교양" (by decide), envC3_rawS_zero "핵심교양" (by decide),
      envC3_rawS_zero "전공필수" (by decide), envC3_rawS_zero "전공선택" (by decide)]
    rw [show envC3.reqs = DEFAULT_REQUIREMENTS from rfl]
    rw [overflowOf_zero (by decide), overflowOf_zero (by decide),
      overflowOf_zero (by decide), overflowOf_zero (by decide), overflowOf_zero (by decide)]
    norm_num
  · rw [total_earned_default_not_over envC3 rfl rfl hover]
    rw [envC3_rawS_zero "공통교양" (by decide), envC3_rawS_zero "핵심교양" (by decide),
      envC3_rawS_zero "전공필수" (by decide), envC3_rawS_zero "전공선택" (by decide),
      envC3_rawS_zero "일반선택" (by decide)]
    norm_num

/-- C3 (amended): the overflow pass only iterates the requirement
profile's categories, so the credit of a category absent from the
profile is silently discarded — dropping all of that category's courses
changes neither the grand total nor the 일반선택 final total (stated for
duplicate-free titles, so the dedup step is inert). -/
theorem C3_missing_category_dropped (env : Env) (X : String)
    (hX1 : X ∉ env.reqs.map (fun p => p.1))
    (hX2 : X ≠ "일반선택") (hX3 : X ≠ "전공선택")
    (htitles : (env.courses.map (fun c => c.title)).Nodup) :
    total_earned { env with courses := env.courses.filter (fun c => c.category ≠ X) }
        = total_earned env ∧
    adjusted_summary { env with courses := env.courses.filter (fun c => c.category ≠ X) }
        "일반선택"
      = adjusted_summary env "일반선택" := by
  set envp := { env with courses := env.courses.filter (fun c => c.category ≠ X) } with henvp
  have hkeys : ∀ cat ∈ loopCats env.reqs, cat ≠ X := by
    intro cat hcat he
    subst he
    exact hX1 (((env.reqs.map (fun p => p.1)).erase_sublist "총계").subset hcat)
  have hov : total_overflow envp = total_overflow env := by
    unfold total_overflow
    apply congrArg
    apply List.map_congr_left
    intro cat hcat
    rw [List.mem_filter] at hcat
    rw [rawAfterAdvanced_drop_category env X htitles hX3
      (hkeys cat hcat.1)]
  have hgen : adjusted_summary envp "일반선택" = adjusted_summary env "일반선택" := by
    unfold adjusted_summary
    rw [if_pos rfl, if_pos rfl, hov,
      rawAfterAdvanced_drop_category env X htitles hX3 (Ne.symm hX2)]
  refine ⟨?_, hgen⟩
  unfold total_earned
  apply congrArg
  apply List.map_congr_left
  intro cat hcat
  rw [adjustedKeys, List.mem_append] at hcat
  rcases hcat with hcat | hcat
  · rw [List.mem_filter] at hcat
    have hne : cat ≠ "일반선택" := by simpa using hcat.2
    unfold adjusted_summary
    rw [if_neg hne, if_neg hne,
      rawAfterAdvanced_drop_category env X htitles hX3 (hkeys cat hcat.1)]
  · have : cat = "일반선택" := by simpa using hcat
    subst this
    exact hgen

/-- Witness for `C3_missing_category_dropped` at the concrete "교직"
session state. -/
theorem C3_missing_category_dropped_witness :
    total_earned { envC3 with courses := envC3.courses.filter (fun c => c.category ≠ "교직") }
        = total_earned envC3 ∧
    adjusted_summary
        { envC3 with courses := envC3.courses.filter (fun c => c.category ≠ "교직") }
        "일반선택"
      = adjusted_summary envC3 "일반선택" :=
  C3_missing_category_dropped envC3 "교직" (by decide) (by decide) (by decide) (by decide)

/-! ## Claim C6 -/

theorem envC6_dedup : envC6.deduped = coursesC6 := by
  simp [Env.deduped, envC6, dedupedOf, sortRetake, drop_duplicates_last, coursesC6]

theorem envC6_gpaRows : gpaRows coursesC6 =
    [⟨"영어", 3, "A+", "공통교양", 2024, "1학기", false⟩] := by
  simp [gpaRows, coursesC6, GRADE_MAP_45, List.filter_cons, List.filter_nil]

theorem envC6_rawS : rawSummary envC6 "공통교양" = 6 := by
  rw [rawSummary, if_pos (by decide), envC6_dedup]
  simp [credSum, coursesC6, List.filter_cons, List.filter_nil]
  norm_num

theorem envC6_rawS_zero : ∀ cat ∈ ["핵심교양", "전공필수", "전공선택", "일반선택"],
    rawSummary envC6 cat = 0 := by
  intro cat hcat
  fin_cases hcat <;>
    (rw [rawSummary, if_pos (by decide), envC6_dedup]
     simp [credSum, coursesC6, List.filter_cons, List.filter_nil])

/-- C6: the weighted GPA filters to grade-point-bearing records and
returns Σ(credits × gradePoint) / Σ(credits); with no such record it
returns 0, not an error; and a P record still contributes its credits
to the earned total — the A+/P scenario yields GPA 9/2 and earned
credits 6. -/
theorem C6_weighted_gpa :
    (∀ rows : List Course, gpaRows rows = [] → overall_gpa rows = 0) ∧
    (∀ rows : List Course, totalCreditsGpa rows ≠ 0 →
      overall_gpa rows = totalPoints rows / totalCreditsGpa rows) ∧
    overall_gpa envC6.deduped = 9/2 ∧
    (calcMisc envC6).earned_credits = 6 := by
  refine ⟨?_, ?_, ?_, ?_⟩
  · intro rows h
    rw [overall_gpa, if_pos (by rw [totalCreditsGpa, h]; simp)]
  · intro rows h
    rw [overall_gpa, if_neg h]
  · rw [envC6_dedup, overall_gpa]
    have hc : totalCreditsGpa coursesC6 = 3 := by
      rw [totalCreditsGpa, envC6_gpaRows]
      norm_num
    have hp : totalPoints coursesC6 = 27/2 := by
      rw [totalPoints, envC6_gpaRows]
      simp [GRADE_MAP_45]
      norm_num
    rw [if_neg (by rw [hc]; norm_num), hc, hp]
    norm_num
  · show total_earned envC6 = 6
    rw [total_earned_default_not_over envC6 rfl rfl
      (by
        rw [show majorSelectionCredits envC6 = 0 from envC6_rawS_zero "전공선택" (by decide)]
        rw [show majorSelectionRequired envC6 = 24 from by decide]
        norm_num)]
    rw [envC6_rawS, envC6_rawS_zero "핵심교양" (by decide),
      envC6_rawS_zero "전공필수" (by decide), envC6_rawS_zero "전공선택" (by decide),
      envC6_rawS_zero "일반선택" (by decide)]
    norm_num

/-- Witness for `C6_weighted_gpa`: the zero case on an all-P record
set, and the quotient formula on the scenario's deduplicated set. -/
theorem C6_weighted_gpa_witness :
    overall_gpa [pOnly] = 0 ∧
    overall_gpa envC6.deduped = totalPoints envC6.deduped / totalCreditsGpa envC6.deduped :=
  ⟨C6_weighted_gpa.1 [pOnly]
      (by simp [gpaRows, pOnly, GRADE_MAP_45, List.filter_cons, List.filter_nil]),
   C6_weighted_gpa.2.1 envC6.deduped (by
     rw [envC6_dedup, totalCreditsGpa, envC6_gpaRows]
     norm_num)⟩

/-! ## Claim C10 -/

theorem roundHalfEven_close (x : ℚ) : |(roundHalfEven x : ℚ) - x| ≤ 1/2 := by
  have hfl : ((⌊x⌋ : ℤ) : ℚ) ≤ x := Int.floor_le x
  have hlt : x < ⌊x⌋ + 1 := Int.lt_floor_add_one x
  unfold roundHalfEven
  split_ifs with h1 h2 h3
  · rw [abs_le]
    constructor <;> linarith
  · rw [abs_le]
    push_cast
    constructor <;> linarith
  · rw [abs_le]
    constructor <;> linarith
  · rw [abs_le]
    push_cast
    constructor <;> linarith

theorem round2_close (q : ℚ) : |round2 q - q| ≤ 1/200 := by
  have h := roundHalfEven_close (q * 100)
  rw [round2]
  have heq : (roundHalfEven (q * 100) : ℚ) / 100 - q
      = ((roundHalfEven (q * 100) : ℚ) - q * 100) / 100 := by
    ring
  rw [heq, abs_div]
  rw [show |(100:ℚ)| = 100 from by norm_num]
  linarith [abs_nonneg ((roundHalfEven (q * 100) : ℚ) - q * 100)]

/-- C10 (counterexample): the engine does not return the overall GPA at
full precision.  One 1-credit "A0" and one 2-credit "B0" record have
exact GPA 10/3, but the misc dict of `calculate_with_overflow` carries
`round(overall_gpa, 2)` = 333/100 ≠ 10/3. -/
theorem C10_rounding_counterexample :
    overall_gpa envC10.deduped = 10/3 ∧
    (calcMisc envC10).overall_gpa = 333/100 ∧
    (calcMisc envC10).overall_gpa ≠ overall_gpa envC10.deduped := by
  have hgpa : overall_gpa envC10.deduped = 10/3 := by
    rw [show envC10.deduped = coursesC10 from by
      simp [Env.deduped, envC10, dedupedOf, sortRetake, drop_duplicates_last, coursesC10]]
    rw [overall_gpa]
    have hr : gpaRows coursesC10 = coursesC10 := by
      simp [gpaRows, coursesC10, GRADE_MAP_45, List.filter_cons, List.filter_nil]
    have hc : totalCreditsGpa coursesC10 = 3 := by
      rw [totalCreditsGpa, hr]
      norm_num [coursesC10]
    have hp : totalPoints coursesC10 = 10 := by
      rw [totalPoints, hr]
      simp [coursesC10, GRADE_MAP_45]
      norm_num
    rw [if_neg (by rw [hc]; norm_num), hc, hp]
  have hfloor : ⌊(10:ℚ)/3 * 100⌋ = 333 := by
    rw [show (10:ℚ)/3 * 100 = 1000/3 from by ring]
    rw [Int.floor_eq_iff]
    norm_num
  have hr2 : round2 ((10:ℚ)/3) = 333/100 := by
    rw [round2, roundHalfEven]
    rw [hfloor]
    rw [if_pos (by rw [show (10:ℚ)/3 * 100 = 1000/3 from by ring]; norm_num)]
    norm_num
  refine ⟨hgpa, ?_, ?_⟩
  · show round2 (overall_gpa envC10.deduped) = 333/100
    rw [hgpa, hr2]
  · show round2 (overall_gpa envC10.deduped) ≠ overall_gpa envC10.deduped
    rw [hgpa, hr2]
    norm_num

/-- C10 (amended): the engine itself rounds — the misc dict's overall
GPA equals `round(exact, 2)`, is always an integer number of
hundredths, and sits within 1/200 of the exact quotient. -/
theorem C10_gpa_rounded_inside_engine (env : Env) :
    (calcMisc env).overall_gpa = round2 (overall_gpa env.deduped) ∧
    (∃ z : ℤ, (calcMisc env).overall_gpa = (z : ℚ) / 100) ∧
    |(calcMisc env).overall_gpa - overall_gpa env.deduped| ≤ 1/200 :=
  ⟨rfl, ⟨roundHalfEven (overall_gpa env.deduped * 100), rfl⟩, round2_close _⟩


/-! ## Claim C8 -/

theorem filter_ne_setReq_map (reqs : Reqs) (cat : String) (v : ℚ) :
    ((reqs.map (fun p => if p.1 = cat then (p.1, v) else p)).filter (fun p => p.1 ≠ cat))
      = reqs.filter (fun p => p.1 ≠ cat) := by
  induction reqs with
  | nil => rfl
  | cons p ps ih =>
    rw [List.map_cons, List.filter_cons, List.filter_cons]
    by_cases hp : p.1 = cat
    · rw [if_pos hp]
      have h1 : (decide ((p.1, v).1 ≠ cat)) = false := by simp [hp]
      rw [h1]
      simp only [Bool.false_eq_true, if_false]
      exact ih
    · rw [if_neg hp]
      have h2 : (decide (p.1 ≠ cat)) = true := by simp [hp]
      rw [h2]
      simp only [if_true]
      rw [ih]

theorem filter_ne_total_setReq (reqs : Reqs) (v : ℚ) :
    (setReq reqs "총계" v).filter (fun p => p.1 ≠ "총계")
      = reqs.filter (fun p => p.1 ≠ "총계") := by
  unfold setReq
  split_ifs with hs
  · exact filter_ne_setReq_map reqs "총계" v
  · rw [List.filter_append]
    simp

theorem auto_setReq_total (reqs : Reqs) (v : ℚ) :
    auto_calculate_total_credits (setReq reqs "총계" v)
      = auto_calculate_total_credits reqs := by
  unfold auto_calculate_total_credits
  rw [filter_ne_total_setReq]

theorem reqGet_setReq_self (reqs : Reqs) (cat : String) (v d : ℚ) :
    reqGet (setReq reqs cat v) cat d = v := by
  unfold setReq
  split_ifs with hs
  · unfold reqGet
    induction reqs with
    | nil => simp at hs
    | cons p ps ih =>
      rw [List.map_cons]
      by_cases hp : p.1 = cat
      · rw [if_pos hp]
        rw [List.find?_cons_of_pos _ (by simp [hp])]
      · rw [if_neg hp]
        rw [List.find?_cons_of_neg _ (by simp [hp])]
        apply ih
        rw [List.find?_cons_of_neg _ (by simp [hp])] at hs
        exact hs
  · unfold reqGet
    induction reqs with
    | nil =>
      rw [List.nil_append, List.find?_cons_of_pos _ (by simp)]
    | cons p ps ih =>
      have hp : ¬ p.1 = cat := by
        intro hp
        rw [List.find?_cons_of_pos _ (by simp [hp])] at hs
        simp at hs
      rw [List.cons_append, List.find?_cons_of_neg _ (by simp [hp])]
      apply ih
      rw [List.find?_cons_of_neg _ (by simp [hp])] at hs
      exact hs

/-- Every write of 총계 in the source has the form
`reqs["총계"]["required"] = auto_calculate_total_credits(reqs)`; after
it the invariant holds. -/
theorem recomputeTotal_inv (reqs : Reqs) : totalInv (recomputeTotal reqs) := by
  unfold totalInv recomputeTotal
  rw [reqGet_setReq_self, auto_setReq_total]

theorem find?_append_left {α : Type} (l₁ l₂ : List α) (p : α → Bool)
    (h : (l₁.find? p).isSome) : (l₁ ++ l₂).find? p = l₁.find? p := by
  induction l₁ with
  | nil => simp at h
  | cons x xs ih =>
    by_cases hx : p x = true
    · rw [List.cons_append, List.find?_cons_of_pos _ hx, List.find?_cons_of_pos _ hx]
    · rw [List.cons_append, List.find?_cons_of_neg _ hx, List.find?_cons_of_neg _ hx]
      apply ih
      rw [List.find?_cons_of_neg _ hx] at h
      exact h

theorem find?_append_right {α : Type} (l₁ l₂ : List α) (p : α → Bool)
    (h : l₁.find? p = none) : (l₁ ++ l₂).find? p = l₂.find? p := by
  induction l₁ with
  | nil => rfl
  | cons x xs ih =>
    by_cases hx : p x = true
    · rw [List.find?_cons_of_pos _ hx] at h
      simp at h
    · rw [List.cons_append, List.find?_cons_of_neg _ hx]
      apply ih
      rw [List.find?_cons_of_neg _ hx] at h
      exact h

/-- `add_custom_category` inserts a fresh category with requirement 0
(`validate_category_name` rejects existing names), which preserves the
grand-total invariant without a recomputation. -/
theorem add_fresh_inv (reqs : Reqs) (name : String)
    (hfresh : reqs.find? (fun p => p.1 = name) = none)
    (hinv : totalInv reqs) :
    totalInv (add_custom_category_reqs reqs name) := by
  unfold add_custom_category_reqs setReq
  rw [if_neg (by rw [hfresh]; simp)]
  unfold totalInv at hinv ⊢
  have hauto : auto_calculate_total_credits (reqs ++ [(name, 0)])
      = auto_calculate_total_credits reqs := by
    unfold auto_calculate_total_credits
    rw [List.filter_append, List.map_append, List.sum_append]
    by_cases hn : name = "총계"
    · simp [hn]
    · simp [hn]
  rw [hauto]
  unfold reqGet
  by_cases hs : (reqs.find? (fun p => p.1 = "총계")).isSome
  · rw [find?_append_left _ _ _ hs]
    exact hinv
  · have hnone : reqs.find? (fun p => p.1 = "총계") = none := by
      cases h : reqs.find? (fun p => p.1 = "총계")
      · rfl
      · rw [h] at hs
        simp at hs
    rw [find?_append_right _ _ _ hnone]
    unfold reqGet at hinv
    rw [hnone] at hinv
    by_cases hn : name = "총계"
    · rw [List.find?_cons_of_pos _ (by simp [hn])]
      exact hinv
    · rw [List.find?_cons_of_neg _ (by simp [hn])]
      exact hinv

/-- C8: after every requirement-profile mutation event — editing a
category's requirement, the sidebar quick-add, removing a category,
switching track (each completed by the unconditional sidebar 총계
recomputation its rerun performs), and adding a fresh custom category
with requirement 0 — the 총계 requirement equals the sum of all other
categories' requirements; and the recomputation never depends on the
previously stored 총계 value. -/
theorem C8_grand_total_invariant :
    (∀ reqs : Reqs, ∀ cat : String, ∀ v : ℚ,
      totalInv (update_requirement_with_auto_total reqs cat v)) ∧
    (∀ reqs : Reqs, ∀ name : String, ∀ dflt : ℚ,
      totalInv (quick_add_event reqs name dflt)) ∧
    (∀ reqs : Reqs, ∀ name : String, totalInv (remove_category_event reqs name)) ∧
    (∀ mt : String, ∀ oldReqs : Reqs, ∀ keep : List String,
      totalInv (switch_track_reqs_event mt oldReqs keep)) ∧
    (∀ reqs : Reqs, ∀ name : String,
      reqs.find? (fun p => p.1 = name) = none → totalInv reqs →
      totalInv (add_custom_category_reqs reqs name)) ∧
    (∀ reqs : Reqs, ∀ v : ℚ,
      reqGet (recomputeTotal (setReq reqs "총계" v)) "총계" 0
        = reqGet (recomputeTotal reqs) "총계" 0) :=
  ⟨fun reqs cat v => recomputeTotal_inv (setReq reqs cat v),
   fun reqs name dflt => recomputeTotal_inv (setReq reqs name dflt),
   fun reqs name => recomputeTotal_inv (delReq reqs name),
   fun mt oldReqs keep => recomputeTotal_inv (switchMergeReqs mt oldReqs keep),
   add_fresh_inv,
   fun reqs v => by
     unfold recomputeTotal
     rw [reqGet_setReq_self, reqGet_setReq_self, auto_setReq_total]⟩

/-- Witness for `C8_grand_total_invariant`: an edit of 공통교양 to 15 on
the default profile, and a fresh "교직" added to the default profile
(which itself satisfies the invariant: 130 = 13+6+18+24+30+39). -/
theorem C8_grand_total_invariant_witness :
    totalInv (update_requirement_with_auto_total DEFAULT_REQUIREMENTS "공통교양" 15) ∧
    (DEFAULT_REQUIREMENTS.find? (fun p => p.1 = "교직") = none ∧
      totalInv DEFAULT_REQUIREMENTS) ∧
    totalInv (add_custom_category_reqs DEFAULT_REQUIREMENTS "교직") := by
  have hd : totalInv DEFAULT_REQUIREMENTS := by
    unfold totalInv reqGet auto_calculate_total_credits DEFAULT_REQUIREMENTS
    simp [List.find?, List.filter_cons]
    norm_num
  exact ⟨C8_grand_total_invariant.1 DEFAULT_REQUIREMENTS "공통교양" 15,
    ⟨by decide, hd⟩,
    C8_grand_total_invariant.2.2.2.2.1 DEFAULT_REQUIREMENTS "교직" (by decide) hd⟩

/-! ## Claim C9 -/

theorem countCat_pos_of_mem {df : List Course} {c : Course} (hc : c ∈ df) :
    0 < countCat df c.category := by
  unfold countCat
  apply List.length_pos.mpr
  intro hnil
  have : c ∈ df.filter (fun d => d.category = c.category) :=
    List.mem_filter.mpr ⟨hc, by simp⟩
  rw [hnil] at this
  cases this

/-- C9: switching to a different track is rejected — with the prior
state returned untouched — exactly when some course uses a category
illegal under the target track, and the conflict list then holds each
offending category with its record count; with no offending course the
switch succeeds with an empty conflict list.  For the three real
tracks, the checked categories are precisely the track-specific ones
not legal for entry under the target track. -/
theorem C9_track_switch_validation (st : AppState) (newMt : String) :
    (newMt ≠ st.majorType →
      ((∃ c ∈ st.courses, c.category ∈ invalidCatsFor newMt) →
        (update_major_type_with_validation st newMt).1 = st ∧
        (∀ cat : String, ∀ n : Nat,
          ((cat, n) ∈ (update_major_type_with_validation st newMt).2 ↔
            (cat ∈ invalidCatsFor newMt ∧ n = countCat st.courses cat ∧ 0 < n)))) ∧
      ((∀ c ∈ st.courses, c.category ∉ invalidCatsFor newMt) →
        (update_major_type_with_validation st newMt).1.majorType = newMt ∧
        (update_major_type_with_validation st newMt).2 = [])) ∧
    (newMt ∈ MAJOR_TYPE_OPTIONS →
      ∀ cat, cat ∈ invalidCatsFor newMt ↔
        (cat ∈ trackSpecificCats ∧ cat ∉ get_categories_by_major_type newMt)) := by
  constructor
  · intro hne
    have hconf : ∀ cat n, ((cat, n) ∈ (check_major_type_compatibility st.courses newMt).2 ↔
        (cat ∈ invalidCatsFor newMt ∧ n = countCat st.courses cat ∧ 0 < n)) := by
      intro cat n
      unfold check_major_type_compatibility
      by_cases hnil : st.courses = []
      · rw [if_pos hnil]
        constructor
        · intro h
          cases h
        · rintro ⟨_, hn, hpos⟩
          rw [hn] at hpos
          unfold countCat at hpos
          rw [hnil] at hpos
          simp at hpos
      · rw [if_neg hnil]
        simp only [List.mem_map, List.mem_filter, decide_eq_true_eq]
        constructor
        · rintro ⟨cat2, ⟨hmem, hpos⟩, heq⟩
          obtain ⟨h1, h2⟩ := Prod.mk.injEq _ _ _ _ ▸ heq
          subst h1
          subst h2
          exact ⟨hmem, rfl, hpos⟩
        · rintro ⟨hmem, hn, hpos⟩
          subst hn
          exact ⟨cat, ⟨hmem, hpos⟩, rfl⟩
    constructor
    · intro hex
      obtain ⟨c, hc, hcat⟩ := hex
      have hnil : st.courses ≠ [] := fun h => by
        rw [h] at hc
        cases hc
      have hpos : 0 < countCat st.courses c.category := countCat_pos_of_mem hc
      have hcmem : (c.category, countCat st.courses c.category) ∈
          (check_major_type_compatibility st.courses newMt).2 := by
        rw [hconf]
        exact ⟨hcat, rfl, hpos⟩
      have hcne : (check_major_type_compatibility st.courses newMt).2 ≠ [] := by
        intro h
        rw [h] at hcmem
        cases hcmem
      have hfst : (check_major_type_compatibility st.courses newMt).1 = false := by
        unfold check_major_type_compatibility at hcne ⊢
        rw [if_neg hnil] at hcne ⊢
        simpa using hcne
      unfold update_major_type_with_validation
      rw [if_pos hne]
      constructor
      · simp only [hfst]
        rfl
      · intro cat n
        simp only [hfst]
        exact hconf cat n
    · intro hall
      have hcempty : (check_major_type_compatibility st.courses newMt).2 = [] := by
        unfold check_major_type_compatibility
        by_cases hnil : st.courses = []
        · rw [if_pos hnil]
        · rw [if_neg hnil]
          simp only
          apply List.map_eq_nil_iff.mpr
          apply List.filter_eq_nil_iff.mpr
          intro cat hcat
          simp only [decide_eq_true_eq, not_lt, Nat.le_zero]
          unfold countCat
          rw [List.length_eq_zero]
          apply List.filter_eq_nil_iff.mpr
          intro c hc
          simp only [decide_eq_true_eq]
          intro he
          exact hall c hc (he ▸ hcat)
      have hfst : (check_major_type_compatibility st.courses newMt).1 = true := by
        unfold check_major_type_compatibility at hcempty ⊢
        by_cases hnil : st.courses = []
        · rw [if_pos hnil]
        · rw [if_neg hnil] at hcempty ⊢
          simpa using hcempty
      unfold update_major_type_with_validation
      rw [if_pos hne]
      simp only [hfst, hcempty]
      exact ⟨rfl, rfl⟩
  · intro hopt
    fin_cases hopt
    · intro cat
      constructor
      · intro h
        fin_cases h <;> decide
      · rintro ⟨h1, h2⟩
        fin_cases h1 <;> decide
    · intro cat
      constructor
      · intro h
        fin_cases h <;> decide
      · rintro ⟨h1, h2⟩
        fin_cases h1 <;> first | decide | exact absurd (by decide) h2
    · intro cat
      constructor
      · intro h
        fin_cases h <;> decide
      · rintro ⟨h1, h2⟩
        fin_cases h1 <;> first | decide | exact absurd (by decide) h2

/-- Witness for `C9_track_switch_validation`: with one 복수전공 필수
course, switching from 복수전공 to 심화전공 is rejected, the state is
unchanged, and the conflicts name (복수전공 필수, 1). -/
theorem C9_track_switch_validation_witness :
    (update_major_type_with_validation stC9 "심화전공").1 = stC9 ∧
    (("복수전공 필수", 1) ∈ (update_major_type_with_validation stC9 "심화전공").2) := by
  have h := ((C9_track_switch_validation stC9 "심화전공").1 (by decide)).1
    ⟨⟨"경영학원론", 3, "A0", "복수전공 필수", 2024, "1학기", false⟩, by decide, by decide⟩
  exact ⟨h.1, (h.2 "복수전공 필수" 1).mpr ⟨by decide, by decide, by decide⟩⟩

end KUGPA
